import Mathlib

/-!
Shallow embedding of the judging and scoring engine of the toy festival
application (`scores/services.py` and `scores/models.py`), together with
theorems settling the frozen claims about it.

Conventions of the embedding:
* Django `Decimal` values are modelled as exact rationals (`ℚ`), database
  timestamps as integers (`ℤ`).
* Each Django model becomes a structure holding the fields the engine
  reads; a database state is a `DB` record of row lists, in insertion
  order (`QuerySet.first()` without an explicit ordering is `List.find?`).
* `transaction.atomic` blocks are modelled with `Except`: an error result
  means the transaction rolled back and nothing was persisted.
* `unique_together` constraints are enforced at insertion time, as the
  database does: inserting a clashing row yields `integrityError`.
-/

namespace ToyFestival

/-- Python truthiness of an optional string: `None` and `""` are falsy. -/
def strTruthy : Option String → Bool
  | none => false
  | some s => s ≠ ""

/-- `register.models.Registration`, restricted to the fields the scoring
engine reads (`id`, `program_id`, `participant`, `status`, `category_value`). -/
structure Registration where
  id : Nat
  program_id : Nat
  participant_id : Nat
  status : String
  category_value : Option String
deriving DecidableEq

/-- `scores.models.Rubric` (fields read by the engine). `category_value` is a
nullable column: `none` models SQL `NULL` (the general rubric). -/
structure Rubric where
  id : Nat
  program_id : Nat
  category_value : Option String
  total_possible_points : ℚ
  is_active : Bool
deriving DecidableEq

/-- `scores.models.RubricCriteria` (fields read by the engine). -/
structure RubricCriteria where
  id : Nat
  rubric_id : Nat
  max_score : ℚ
  weight : ℚ
deriving DecidableEq

/-- `scores.models.ScoringConfiguration` (fields read by the engine). -/
structure ScoringConfiguration where
  program_id : Nat
  scoring_start : Int
  scoring_end : Int
  calculation_method : String
  top_n_count : Option Nat
  allow_revisions : Bool
  revision_deadline : Option Int
  max_revisions_per_score : Nat
deriving DecidableEq

/-- `scores.models.JudgeAssignment` (fields read by the engine).
`category_value` is a non-nullable `CharField` (blank = all categories). -/
structure JudgeAssignment where
  id : Nat
  program_id : Nat
  judge_id : Nat
  category_value : String
  status : String
  max_participants : Option Nat
deriving DecidableEq

/-- `scores.models.ConflictOfInterest` (fields read by the engine). -/
structure ConflictOfInterest where
  judge_id : Nat
  participant_id : Nat
  status : String
deriving DecidableEq

/-- `scores.models.JudgingScore` (fields read by the engine). -/
structure JudgingScore where
  id : Nat
  program_id : Nat
  registration_id : Nat
  judge_id : Nat
  criteria_id : Nat
  raw_score : ℚ
  max_score : ℚ
  score_percentage : ℚ
  weighted_score : ℚ
  revision_number : Nat
  previous_score_id : Option Nat
deriving DecidableEq

/-- A database state: one list of rows per table, in insertion order, plus
fresh-id counters for the tables the services insert into. -/
structure DB where
  registrations : List Registration
  rubrics : List Rubric
  criteria : List RubricCriteria
  configs : List ScoringConfiguration
  assignments : List JudgeAssignment
  conflicts : List ConflictOfInterest
  scores : List JudgingScore
  next_score_id : Nat
  next_rubric_id : Nat
  next_criteria_id : Nat
deriving DecidableEq

/-- The typed failures raised by the engine. The source raises Django
`ValidationError` with distinguishing messages; each message family is one
constructor here. `integrityError` models the database rejecting an insert
that violates a `unique_together` constraint. -/
inductive JudgingError where
  | noConfig
  | scoringNotStarted
  | scoringClosed
  | notAssigned
  | conflictOfInterest
  | noRubric
  | criteriaNotFound (id : Nat)
  | scoreExceedsMax
  | revisionsNotAllowed
  | revisionDeadlinePassed
  | revisionLimitExceeded
  | integrityError
  | weightsNotSummingToOne
deriving DecidableEq

/-- `ScoringConfiguration.objects.get(program=program)` (the program field is
`OneToOneField`, so at most one row matches). -/
def findConfig (db : DB) (program_id : Nat) : Option ScoringConfiguration :=
  db.configs.find? (fun c => c.program_id == program_id)

/-- `ScoringConfiguration.is_scoring_active`:
`self.scoring_start <= now <= self.scoring_end`. -/
def ScoringConfiguration.is_scoring_active (config : ScoringConfiguration)
    (now : Int) : Bool :=
  decide (config.scoring_start ≤ now ∧ now ≤ config.scoring_end)

/-- `ScoringService.validate_scoring_window`. -/
def validate_scoring_window (db : DB) (program_id : Nat) (now : Int) :
    Except JudgingError Unit :=
  match findConfig db program_id with
  | none => .error .noConfig
  | some config =>
    if now < config.scoring_start then .error .scoringNotStarted
    else if now > config.scoring_end then .error .scoringClosed
    else .ok ()

/-- `ScoringService.validate_judge_permission`: an ACTIVE assignment for the
registration's program, with a blank category or the registration's category.
(A `Q(category_value=None)` filter on a non-nullable column matches nothing,
which the `Option`-against-`String` comparison reproduces.) -/
def validate_judge_permission (db : DB) (judge_id : Nat) (reg : Registration) :
    Except JudgingError Unit :=
  match db.assignments.find? (fun a =>
      a.judge_id == judge_id && a.program_id == reg.program_id &&
      a.status == "ACTIVE" &&
      (a.category_value == "" || some a.category_value == reg.category_value)) with
  | none => .error .notAssigned
  | some _ => .ok ()

/-- `ScoringService.check_conflicts`: the first conflict row for
(judge, participant) blocks only when its status is REJECTED. -/
def check_conflicts (db : DB) (judge_id : Nat) (reg : Registration) :
    Except JudgingError Unit :=
  match db.conflicts.find? (fun c =>
      c.judge_id == judge_id && c.participant_id == reg.participant_id) with
  | some c => if c.status == "REJECTED" then .error .conflictOfInterest else .ok ()
  | none => .ok ()

/-- The general-rubric fallback query of `Rubric.get_for_registration`:
active rubric of the program with `category_value__isnull=True`. -/
def findGeneralRubric (db : DB) (program_id : Nat) : Option Rubric :=
  db.rubrics.find? (fun r =>
    r.program_id == program_id && r.category_value == none && r.is_active)

/-- `Rubric.get_for_registration`: category-specific active rubric first
(only when the registration's category value is truthy), then the general
fallback. -/
def Rubric.get_for_registration (db : DB) (reg : Registration) : Option Rubric :=
  if strTruthy reg.category_value then
    match db.rubrics.find? (fun r =>
        r.program_id == reg.program_id &&
        r.category_value == reg.category_value && r.is_active) with
    | some r => some r
    | none => findGeneralRubric db reg.program_id
  else findGeneralRubric db reg.program_id

/-- The derived-field computation of `JudgingScore.save`: percentage (0 when
`max_score` is not positive) and weighted score. -/
def save_score_fields (raw_score max_score weight total_possible_points : ℚ) :
    ℚ × ℚ :=
  let score_percentage := if max_score > 0 then raw_score / max_score * 100 else 0
  (score_percentage, score_percentage / 100 * weight * total_possible_points)

/-- Does a row with this `unique_together` key
(program, registration, judge, criteria) already exist? -/
def unique_key_clash (db : DB)
    (program_id registration_id judge_id criteria_id : Nat) : Bool :=
  db.scores.any (fun s =>
    s.program_id == program_id && s.registration_id == registration_id &&
    s.judge_id == judge_id && s.criteria_id == criteria_id)

/-- `JudgingScore.objects.create(...)` followed by `save`: computes the
derived fields and inserts the row, subject to the model's
`unique_together = [('program', 'registration', 'judge', 'criteria')]`. -/
def JudgingScore.create (db : DB)
    (program_id registration_id judge_id : Nat)
    (criteria : RubricCriteria) (rubric : Rubric) (raw_score : ℚ)
    (revision_number : Nat) (previous_score_id : Option Nat) :
    Except JudgingError (DB × JudgingScore) :=
  if unique_key_clash db program_id registration_id judge_id criteria.id then
    .error .integrityError
  else
    let fields := save_score_fields raw_score criteria.max_score criteria.weight
      rubric.total_possible_points
    let row : JudgingScore :=
      { id := db.next_score_id
        program_id := program_id
        registration_id := registration_id
        judge_id := judge_id
        criteria_id := criteria.id
        raw_score := raw_score
        max_score := criteria.max_score
        score_percentage := fields.1
        weighted_score := fields.2
        revision_number := revision_number
        previous_score_id := previous_score_id }
    let db1 : DB :=
      { db with scores := db.scores ++ [row], next_score_id := db.next_score_id + 1 }
    .ok (db1, row)

/-- The existing-revision count used by `ScoringService.track_revision`. -/
def revisionCount (db : DB) (s : JudgingScore) : Nat :=
  (db.scores.filter (fun t =>
    t.program_id == s.program_id && t.registration_id == s.registration_id &&
    t.judge_id == s.judge_id && t.criteria_id == s.criteria_id)).length

/-- `ScoringService.track_revision`: revision-policy checks, then a fresh row
with `revision_number = old.revision_number + 1` and a back-reference. -/
def track_revision (db : DB) (old_score : JudgingScore) (new_score : ℚ)
    (criteria : RubricCriteria) (rubric : Rubric) (now : Int) :
    Except JudgingError (DB × JudgingScore) :=
  match findConfig db old_score.program_id with
  | none => .error .noConfig
  | some config =>
    if !config.allow_revisions then .error .revisionsNotAllowed
    else if (match config.revision_deadline with
             | some d => decide (now > d)
             | none => false) then .error .revisionDeadlinePassed
    else if config.max_revisions_per_score > 0 &&
        config.max_revisions_per_score ≤ revisionCount db old_score then
      .error .revisionLimitExceeded
    else
      JudgingScore.create db old_score.program_id old_score.registration_id
        old_score.judge_id criteria rubric new_score
        (old_score.revision_number + 1) (some old_score.id)

/-- One iteration of the `submit_scores` loop: criteria lookup, range check,
then either a fresh entry (revision 1) or a revision of the existing entry. -/
def submit_one (db : DB) (judge_id : Nat) (reg : Registration) (rubric : Rubric)
    (now : Int) (criteria_id : Nat) (raw_score : ℚ) :
    Except JudgingError (DB × JudgingScore) :=
  match db.criteria.find? (fun c =>
      c.id == criteria_id && c.rubric_id == rubric.id) with
  | none => .error (.criteriaNotFound criteria_id)
  | some criteria =>
    if raw_score > criteria.max_score then .error .scoreExceedsMax
    else
      match db.scores.find? (fun s =>
          s.program_id == reg.program_id && s.registration_id == reg.id &&
          s.judge_id == judge_id && s.criteria_id == criteria.id) with
      | some existing => track_revision db existing raw_score criteria rubric now
      | none =>
        JudgingScore.create db reg.program_id reg.id judge_id criteria rubric
          raw_score 1 none

/-- The batch loop of `submit_scores` over the (criteria_id, raw_score)
pairs, threading the transaction state. -/
def submit_loop (judge_id : Nat) (reg : Registration) (rubric : Rubric)
    (now : Int) : DB → List (Nat × ℚ) → List JudgingScore →
    Except JudgingError (DB × List JudgingScore)
  | db, [], created => .ok (db, created)
  | db, (criteria_id, raw_score) :: rest, created =>
    match submit_one db judge_id reg rubric now criteria_id raw_score with
    | .error e => .error e
    | .ok (db1, row) => submit_loop judge_id reg rubric now db1 rest (created ++ [row])

/-- `ScoringService.submit_scores`: window, permission and conflict gates, rubric
resolution, then the atomic batch loop. An error result models the rolled-back
transaction: nothing from the call is persisted. -/
def submit_scores (db : DB) (judge_id : Nat) (reg : Registration)
    (scores_dict : List (Nat × ℚ)) (now : Int) :
    Except JudgingError (DB × List JudgingScore) :=
  match validate_scoring_window db reg.program_id now with
  | .error e => .error e
  | .ok _ =>
    match validate_judge_permission db judge_id reg with
    | .error e => .error e
    | .ok _ =>
      match check_conflicts db judge_id reg with
      | .error e => .error e
      | .ok _ =>
        match Rubric.get_for_registration db reg with
        | none => .error .noRubric
        | some rubric => submit_loop judge_id reg rubric now db scores_dict []

/-- One entry of a `criteria_list` passed to `RubricService.create_rubric`,
restricted to the fields the engine reads. -/
structure CriteriaInput where
  max_score : ℚ
  weight : ℚ
deriving DecidableEq

/-- `RubricService.validate_rubric_weights`: the weights must sum to 1
within a tolerance of 1/100 (the source's `Decimal('0.01')`). -/
def validate_rubric_weights (criteria_list : List CriteriaInput) :
    Except JudgingError Unit :=
  let total_weight := (criteria_list.map (fun c => c.weight)).sum
  if |total_weight - 1| > 1 / 100 then .error .weightsNotSummingToOne
  else .ok ()

/-- `RubricService.create_rubric`: validate weights, then atomically
deactivate the active rubrics of the same (program, category_value) pair and
insert the new rubric and its criteria. -/
def create_rubric (db : DB) (program_id : Nat)
    (criteria_list : List CriteriaInput) (total_points : ℚ)
    (category_value : Option String) : Except JudgingError (DB × Rubric) :=
  match validate_rubric_weights criteria_list with
  | .error e => .error e
  | .ok _ =>
    let deactivated := db.rubrics.map (fun r =>
      if r.program_id == program_id && r.category_value == category_value &&
          r.is_active then { r with is_active := false } else r)
    let rubric : Rubric :=
      { id := db.next_rubric_id
        program_id := program_id
        category_value := category_value
        total_possible_points := total_points
        is_active := true }
    let new_criteria := criteria_list.enum.map (fun p =>
      ({ id := db.next_criteria_id + p.1
         rubric_id := rubric.id
         max_score := p.2.max_score
         weight := p.2.weight } : RubricCriteria))
    let db1 : DB :=
      { db with rubrics := deactivated ++ [rubric],
                criteria := db.criteria ++ new_criteria,
                next_rubric_id := db.next_rubric_id + 1,
                next_criteria_id := db.next_criteria_id + criteria_list.length }
    .ok (db1, rubric)

/-- One step of the `latest_scores` dictionary of
`ResultsService.aggregate_scores`: keyed by (judge_id, criteria_id), an entry
is replaced only by one with a strictly greater `revision_number`; key order
is insertion order, as for a Python dict. -/
def latest_insert : List ((Nat × Nat) × JudgingScore) → JudgingScore →
    List ((Nat × Nat) × JudgingScore)
  | [], s => [((s.judge_id, s.criteria_id), s)]
  | (k, v) :: rest, s =>
    if k = (s.judge_id, s.criteria_id) then
      (if s.revision_number > v.revision_number then (k, s) else (k, v)) :: rest
    else (k, v) :: latest_insert rest s

/-- The `if not top_n: top_n = 3` default of the TOP_N branch (`None` and
`0` are both falsy). -/
def defaultTopN : Option Nat → Nat
  | none => 3
  | some 0 => 3
  | some (n + 1) => n + 1

/-- One step of the `judge_totals` dictionary of the TOP_N branch: add a
weighted score to the judge's running total, inserting the judge on first
occurrence (Python dict insertion order). -/
def add_judge_total : List (Nat × ℚ) → Nat → ℚ → List (Nat × ℚ)
  | [], j, w => [(j, w)]
  | (k, v) :: rest, j, w =>
    if k = j then (k, v + w) :: rest else (k, v) :: add_judge_total rest j w

/-- The per-judge totals of a score list (the TOP_N grouping loop). -/
def judge_totals (scores : List JudgingScore) : List (Nat × ℚ) :=
  scores.foldl (fun acc s => add_judge_total acc s.judge_id s.weighted_score) []

/-- Lookup with default 0 in a judge-totals dictionary. -/
def totalFor (d : List (Nat × ℚ)) (j : Nat) : ℚ :=
  match d.find? (fun p => p.1 == j) with
  | some p => p.2
  | none => 0

/-- `ResultsService.apply_calculation_method`: string-dispatched aggregation
over a list of score rows. -/
def apply_calculation_method (scores : List JudgingScore) (method : String)
    (top_n : Option Nat) : ℚ :=
  if scores.isEmpty then 0
  else if method = "AVERAGE_ALL" then
    (scores.map (fun s => s.weighted_score)).sum / (scores.length : ℚ)
  else if method = "TOP_N" then
    let totals := (judge_totals scores).map (fun p => p.2)
    let top_scores :=
      (List.insertionSort (fun a b : ℚ => a ≥ b) totals).take (defaultTopN top_n)
    if top_scores.isEmpty then 0
    else top_scores.sum / (top_scores.length : ℚ)
  else if method = "MEDIAN" then
    let sorted_scores :=
      List.insertionSort (fun a b : ℚ => a ≤ b) (scores.map (fun s => s.weighted_score))
    let n := sorted_scores.length
    if n % 2 = 0 then
      ((sorted_scores.getD (n / 2 - 1) 0) + sorted_scores.getD (n / 2) 0) / 2
    else sorted_scores.getD (n / 2) 0
  else if method = "WEIGHTED" then (scores.map (fun s => s.weighted_score)).sum
  else (scores.map (fun s => s.weighted_score)).sum / (scores.length : ℚ)

/-- One leaderboard result dict of `ResultsService.aggregate_scores`
(`rank` is 0 until `calculate_leaderboard` assigns it). -/
structure LeaderboardEntry where
  registration_id : Nat
  participant_id : Nat
  category_value : Option String
  final_score : ℚ
  judges_count : Nat
  scores_count : Nat
  rank : Nat
deriving DecidableEq

/-- `ResultsService.aggregate_scores`: keep, per (judge, criteria) key, the
entry with the highest revision number, then apply the program's configured
method (AVERAGE_ALL with no top-n when the program has no configuration). -/
def aggregate_scores (db : DB) (reg : Registration) : LeaderboardEntry :=
  let scores := db.scores.filter (fun s =>
    s.program_id == reg.program_id && s.registration_id == reg.id)
  let scores_list := (scores.foldl latest_insert []).map (fun p => p.2)
  let final_score :=
    match findConfig db reg.program_id with
    | some config =>
      apply_calculation_method scores_list config.calculation_method config.top_n_count
    | none => apply_calculation_method scores_list "AVERAGE_ALL" none
  { registration_id := reg.id
    participant_id := reg.participant_id
    category_value := reg.category_value
    final_score := final_score
    judges_count := ((scores_list.map (fun s => s.judge_id)).dedup).length
    scores_count := scores_list.length
    rank := 0 }

/-- The eligible registrations of `ResultsService.calculate_leaderboard` and
`JudgeAssignmentService.distribute_workload`: status PAID for the program,
optionally filtered to a truthy category value. -/
def eligible_registrations (db : DB) (program_id : Nat)
    (category_value : Option String) : List Registration :=
  let regs := db.registrations.filter (fun r =>
    r.program_id == program_id && r.status == "PAID")
  if strTruthy category_value then
    regs.filter (fun r => r.category_value == category_value)
  else regs

/-- `ResultsService.calculate_leaderboard` (the `use_cache=False` pure
recomputation; the cache only reuses a previous return value of this
function): aggregate each eligible registration, sort by final score
descending, then assign 1-based ranks by position. -/
def calculate_leaderboard (db : DB) (program_id : Nat)
    (category_value : Option String) : List LeaderboardEntry :=
  let results := (eligible_registrations db program_id category_value).map
    (aggregate_scores db)
  let sorted := List.insertionSort
    (fun a b : LeaderboardEntry => a.final_score ≥ b.final_score) results
  sorted.enum.map (fun p => { p.2 with rank := p.1 + 1 })

/-- The active-assignment query of
`JudgeAssignmentService.distribute_workload`: ACTIVE assignments of the
program, optionally narrowed (for a truthy category value) to blank-category
or matching-category assignments. -/
def active_assignments (db : DB) (program_id : Nat)
    (category_value : Option String) : List JudgeAssignment :=
  let assignments := db.assignments.filter (fun a =>
    a.program_id == program_id && a.status == "ACTIVE")
  if strTruthy category_value then
    assignments.filter (fun a =>
      a.category_value == "" || some a.category_value == category_value)
  else assignments

/-- Python dict assignment `d[k] = v`: overwrite the value when the key is
present, append the pair otherwise. -/
def dict_set (d : List (Nat × Nat)) (k v : Nat) : List (Nat × Nat) :=
  if d.any (fun p => p.1 == k) then
    d.map (fun p => if p.1 == k then (k, v) else p)
  else d ++ [(k, v)]

/-- `JudgeAssignmentService.distribute_workload`: divide the count of
eligible (PAID, optionally category-filtered) registrations evenly over the
active assignments; the first `remainder` assignments in iteration order get
one extra, and the result is a judge_id-keyed dict. -/
def distribute_workload (db : DB) (program_id : Nat)
    (category_value : Option String) : List (Nat × Nat) :=
  let assignments := active_assignments db program_id category_value
  if assignments.isEmpty then []
  else
    let total_participants := (eligible_registrations db program_id category_value).length
    let total_judges := assignments.length
    let participants_per_judge := total_participants / total_judges
    let remainder := total_participants % total_judges
    assignments.enum.foldl (fun dist p =>
      dict_set dist p.2.judge_id
        (participants_per_judge + if p.1 < remainder then 1 else 0)) []

/-- The count the claim about `distribute_workload` quantifies over, written
from the claim's words rather than the source (for comparison with the
source's behaviour): eligible registrations that are *unscored*, i.e. have no
persisted score row. The source never applies the unscored restriction. -/
def claimUnscoredEligibleCount (db : DB) (program_id : Nat)
    (category_value : Option String) : Nat :=
  ((eligible_registrations db program_id category_value).filter (fun r =>
    !(db.scores.any (fun s =>
      s.program_id == program_id && s.registration_id == r.id)))).length

/-- A PAID registration of participant 1 in program 1, no category. -/
def regA : Registration :=
  { id := 1, program_id := 1, participant_id := 1, status := "PAID",
    category_value := none }

/-- An active general rubric of program 1 worth 100 points. -/
def rubricA : Rubric :=
  { id := 5, program_id := 1, category_value := none,
    total_possible_points := 100, is_active := true }

/-- A single criterion of `rubricA`: max score 10, weight 1. -/
def critA : RubricCriteria := { id := 10, rubric_id := 5, max_score := 10, weight := 1 }

/-- A scoring configuration for program 1: window [0, 100], revisions
allowed with no deadline, at most 3 revisions per score. -/
def configA : ScoringConfiguration :=
  { program_id := 1, scoring_start := 0, scoring_end := 100,
    calculation_method := "AVERAGE_ALL", top_n_count := none,
    allow_revisions := true, revision_deadline := none,
    max_revisions_per_score := 3 }

/-- Judge 1 actively assigned to all categories of program 1. -/
def assignA : JudgeAssignment :=
  { id := 20, program_id := 1, judge_id := 1, category_value := "",
    status := "ACTIVE", max_participants := none }

/-- An existing revision-1 score of judge 1 for registration 1 on
criterion 10. -/
def oldScoreA : JudgingScore :=
  { id := 30, program_id := 1, registration_id := 1, judge_id := 1,
    criteria_id := 10, raw_score := 6, max_score := 10, score_percentage := 60,
    weighted_score := 60, revision_number := 1, previous_score_id := none }

/-- State for the revision claim: a current entry exists for the key and the
configuration permits revisions. -/
def c1db : DB :=
  { registrations := [regA], rubrics := [rubricA], criteria := [critA],
    configs := [configA], assignments := [assignA], conflicts := [],
    scores := [oldScoreA], next_score_id := 31, next_rubric_id := 6,
    next_criteria_id := 11 }

/-- State for the range claim: same as `c1db` but with no existing score. -/
def c2db : DB :=
  { registrations := [regA], rubrics := [rubricA], criteria := [critA],
    configs := [configA], assignments := [assignA], conflicts := [],
    scores := [], next_score_id := 30, next_rubric_id := 6,
    next_criteria_id := 11 }

/-- The row `submit_scores` persists for a raw score of -1 on `critA`. -/
def c2row : JudgingScore :=
  { id := 30, program_id := 1, registration_id := 1, judge_id := 1,
    criteria_id := 10, raw_score := -1, max_score := 10,
    score_percentage := -10, weighted_score := -10, revision_number := 1,
    previous_score_id := none }

/-- The post-state of that submission. -/
def c2db1 : DB := { c2db with scores := [c2row], next_score_id := 31 }

/-- A rejected conflict between judge 1 and participant 1. -/
def c3conflict : ConflictOfInterest :=
  { judge_id := 1, participant_id := 1, status := "REJECTED" }

/-- State for the conflict claim: one REJECTED conflict on record. -/
def c3db : DB :=
  { registrations := [regA], rubrics := [rubricA], criteria := [critA],
    configs := [configA], assignments := [assignA], conflicts := [c3conflict],
    scores := [], next_score_id := 30, next_rubric_id := 6,
    next_criteria_id := 11 }

/-- A criteria list whose weights sum to 0.8, outside the 1% tolerance. -/
def c4badList : List CriteriaInput :=
  [{ max_score := 10, weight := 1 / 2 }, { max_score := 10, weight := 3 / 10 }]

/-- A registration with a truthy category value. -/
def c6reg : Registration :=
  { id := 2, program_id := 1, participant_id := 2, status := "PAID",
    category_value := some "3-7 years" }

/-- An active category-specific rubric matching `c6reg`. -/
def c6rubric : Rubric :=
  { id := 7, program_id := 1, category_value := some "3-7 years",
    total_possible_points := 100, is_active := true }

/-- State for the rubric-resolution claim: one category rubric and one
general rubric, both active. -/
def c6db : DB :=
  { registrations := [c6reg], rubrics := [c6rubric, rubricA], criteria := [],
    configs := [configA], assignments := [], conflicts := [], scores := [],
    next_score_id := 30, next_rubric_id := 8, next_criteria_id := 11 }

/-- First criterion of the worked example: max 10, weight 0.6. -/
def c7crit1 : RubricCriteria :=
  { id := 11, rubric_id := 5, max_score := 10, weight := 3 / 5 }

/-- Second criterion of the worked example: max 10, weight 0.4. -/
def c7crit2 : RubricCriteria :=
  { id := 12, rubric_id := 5, max_score := 10, weight := 2 / 5 }

/-- State for the weighted-score claim: the two-criteria example rubric. -/
def c7db : DB :=
  { registrations := [regA], rubrics := [rubricA],
    criteria := [c7crit1, c7crit2], configs := [configA],
    assignments := [assignA], conflicts := [], scores := [],
    next_score_id := 30, next_rubric_id := 6, next_criteria_id := 13 }

/-- First persisted row of the worked example: 8/10 on weight 0.6 of a
100-point rubric gives percentage 80 and weighted score 48. -/
def c7row1 : JudgingScore :=
  { id := 30, program_id := 1, registration_id := 1, judge_id := 1,
    criteria_id := 11, raw_score := 8, max_score := 10, score_percentage := 80,
    weighted_score := 48, revision_number := 1, previous_score_id := none }

/-- Second persisted row of the worked example: 6/10 on weight 0.4 gives
percentage 60 and weighted score 24. -/
def c7row2 : JudgingScore :=
  { id := 31, program_id := 1, registration_id := 1, judge_id := 1,
    criteria_id := 12, raw_score := 6, max_score := 10, score_percentage := 60,
    weighted_score := 24, revision_number := 1, previous_score_id := none }

/-- The post-state of the worked-example submission. -/
def c7db1 : DB := { c7db with scores := [c7row1, c7row2], next_score_id := 32 }

/-- Judge 1's current entry, weighted total 50. -/
def c8s1 : JudgingScore :=
  { id := 41, program_id := 1, registration_id := 1, judge_id := 1,
    criteria_id := 10, raw_score := 5, max_score := 10, score_percentage := 50,
    weighted_score := 50, revision_number := 1, previous_score_id := none }

/-- Judge 2's current entry, weighted total 70. -/
def c8s2 : JudgingScore :=
  { id := 42, program_id := 1, registration_id := 1, judge_id := 2,
    criteria_id := 10, raw_score := 7, max_score := 10, score_percentage := 70,
    weighted_score := 70, revision_number := 1, previous_score_id := none }

/-- Judge 3's current entry, weighted total 90. -/
def c8s3 : JudgingScore :=
  { id := 43, program_id := 1, registration_id := 1, judge_id := 3,
    criteria_id := 10, raw_score := 9, max_score := 10, score_percentage := 90,
    weighted_score := 90, revision_number := 1, previous_score_id := none }

/-- Three judges' current entries with weighted totals 50, 70, 90. -/
def c8scores : List JudgingScore := [c8s1, c8s2, c8s3]

/-- State refuting the unscored-count reading of `distribute_workload`: one
active judge, two PAID registrations, one of which already has a score. -/
def c9db : DB :=
  { registrations :=
      [regA,
       { id := 2, program_id := 1, participant_id := 2, status := "PAID",
         category_value := none }],
    rubrics := [rubricA], criteria := [critA], configs := [configA],
    assignments := [{ id := 21, program_id := 1, judge_id := 1,
                      category_value := "", status := "ACTIVE",
                      max_participants := none }],
    conflicts := [], scores := [oldScoreA], next_score_id := 31,
    next_rubric_id := 6, next_criteria_id := 11 }

/-- State for the amended distribution claim: two judges, five PAID
registrations. -/
def c9wdb : DB :=
  { registrations :=
      [{ id := 1, program_id := 1, participant_id := 1, status := "PAID", category_value := none },
       { id := 2, program_id := 1, participant_id := 2, status := "PAID", category_value := none },
       { id := 3, program_id := 1, participant_id := 3, status := "PAID", category_value := none },
       { id := 4, program_id := 1, participant_id := 4, status := "PAID", category_value := none },
       { id := 5, program_id := 1, participant_id := 5, status := "PAID", category_value := none }],
    rubrics := [], criteria := [], configs := [],
    assignments :=
      [{ id := 21, program_id := 1, judge_id := 1, category_value := "",
         status := "ACTIVE", max_participants := none },
       { id := 22, program_id := 1, judge_id := 2, category_value := "",
         status := "ACTIVE", max_participants := none }],
    conflicts := [], scores := [], next_score_id := 1, next_rubric_id := 1,
    next_criteria_id := 1 }

/-- State for the empty-leaderboard-entry claim: one PAID registration and
no score rows at all. -/
def c10db : DB :=
  { registrations := [regA], rubrics := [rubricA], criteria := [critA],
    configs := [configA], assignments := [assignA], conflicts := [],
    scores := [], next_score_id := 30, next_rubric_id := 6,
    next_criteria_id := 11 }

/-- Equality of `Except` results is decidable componentwise (needed to
evaluate the engine on concrete states). -/
instance {ε α : Type} [DecidableEq ε] [DecidableEq α] : DecidableEq (Except ε α) :=
  fun a b =>
    match a, b with
    | .error e1, .error e2 =>
      if h : e1 = e2 then isTrue (by rw [h]) else isFalse (by simp [h])
    | .ok v1, .ok v2 =>
      if h : v1 = v2 then isTrue (by rw [h]) else isFalse (by simp [h])
    | .error _, .ok _ => isFalse (by simp)
    | .ok _, .error _ => isFalse (by simp)

/-- A failing scoring-window check aborts `submit_scores` with its error. -/
theorem submit_scores_of_window_error {db : DB} {judge_id : Nat}
    {reg : Registration} {scores_dict : List (Nat × ℚ)} {now : Int}
    {e : JudgingError}
    (h : validate_scoring_window db reg.program_id now = .error e) :
    submit_scores db judge_id reg scores_dict now = .error e := by
  unfold submit_scores
  rw [h]

/-- When the three gates pass and a rubric resolves, `submit_scores` is the
batch loop over the score map. -/
theorem submit_scores_of_gates_ok {db : DB} {judge_id : Nat}
    {reg : Registration} {scores_dict : List (Nat × ℚ)} {now : Int}
    {rubric : Rubric}
    (h1 : validate_scoring_window db reg.program_id now = .ok ())
    (h2 : validate_judge_permission db judge_id reg = .ok ())
    (h3 : check_conflicts db judge_id reg = .ok ())
    (h4 : Rubric.get_for_registration db reg = some rubric) :
    submit_scores db judge_id reg scores_dict now =
      submit_loop judge_id reg rubric now db scores_dict [] := by
  unfold submit_scores
  rw [h1, h2, h3, h4]

/-- When the three gates pass but no rubric resolves, `submit_scores` fails
with the no-rubric error. -/
theorem submit_scores_of_no_rubric {db : DB} {judge_id : Nat}
    {reg : Registration} {scores_dict : List (Nat × ℚ)} {now : Int}
    (h1 : validate_scoring_window db reg.program_id now = .ok ())
    (h2 : validate_judge_permission db judge_id reg = .ok ())
    (h3 : check_conflicts db judge_id reg = .ok ())
    (h4 : Rubric.get_for_registration db reg = none) :
    submit_scores db judge_id reg scores_dict now = .error .noRubric := by
  unfold submit_scores
  rw [h1, h2, h3, h4]

/-- C1: at a state where a current entry exists for the key and the
configuration permits revisions (`allow_revisions` true, no deadline, limit
not reached), `submit_scores` does not append a revision row: the insert of
`track_revision` violates the model's `unique_together` on
(program, registration, judge, criteria) — which omits `revision_number` —
so the whole submission fails with an integrity error. -/
theorem c1_revision_unique_violation :
    findConfig c1db 1 = some configA ∧ configA.allow_revisions = true ∧
    configA.max_revisions_per_score = 3 ∧ revisionCount c1db oldScoreA = 1 ∧
    submit_scores c1db 1 regA [(10, 7)] 50 = .error .integrityError := by
  decide

unseal Rat.mul Rat.add Rat.sub Rat.inv in
/-- C2: a raw score of -1 (strictly below 0) is not rejected by
`submit_scores`: the source checks only the upper bound, so the entry is
persisted with a negative raw score and a negative percentage, contradicting
the model's own `MinValueValidator(0)` declarations. -/
theorem c2_negative_score_persisted :
    submit_scores c2db 1 regA [(10, -1)] 50 = .ok (c2db1, [c2row]) ∧
    c2row.raw_score < 0 ∧ c2row.score_percentage < 0 ∧
    c2row ∈ c2db1.scores := by
  decide

/-- C4: `create_rubric` succeeds only when the supplied criteria weights sum
to 1 within the 1/100 tolerance; any list deviating by more than 1/100 fails
with the weight validation error, and the error is raised before anything is
created (an error result leaves the state untouched). -/
theorem c4_rubric_weight_validation (db : DB) (program_id : Nat)
    (criteria_list : List CriteriaInput) (total_points : ℚ)
    (category_value : Option String) :
    ((∃ out, create_rubric db program_id criteria_list total_points
        category_value = .ok out) →
      |(criteria_list.map (fun c => c.weight)).sum - 1| ≤ 1 / 100) ∧
    (|(criteria_list.map (fun c => c.weight)).sum - 1| > 1 / 100 →
      create_rubric db program_id criteria_list total_points category_value =
        .error .weightsNotSummingToOne) := by
  unfold create_rubric validate_rubric_weights
  constructor
  · rintro ⟨out, hout⟩
    by_contra hgt
    rw [if_pos (lt_of_not_le hgt)] at hout
    exact Except.noConfusion hout
  · intro hgt
    rw [if_pos hgt]

unseal Rat.mul Rat.add Rat.sub Rat.inv in
/-- Witness for C4 at a concrete bad list: weights 1/2 and 3/10 sum to 4/5,
outside tolerance, so creation fails. -/
theorem c4_rubric_weight_validation_witness :
    create_rubric c2db 1 c4badList 100 none = .error .weightsNotSummingToOne :=
  (c4_rubric_weight_validation c2db 1 c4badList 100 none).2 (by decide)

/-- C5: `is_scoring_active` holds exactly on the closed window
[scoring_start, scoring_end], and a `submit_scores` call made strictly
before the start or strictly after the end fails with one of the two
temporal errors, whatever the rest of the input is. -/
theorem c5_temporal_gating :
    (∀ (config : ScoringConfiguration) (now : Int),
      config.is_scoring_active now = true ↔
        config.scoring_start ≤ now ∧ now ≤ config.scoring_end) ∧
    (∀ (db : DB) (judge_id : Nat) (reg : Registration)
        (scores_dict : List (Nat × ℚ)) (config : ScoringConfiguration)
        (now : Int),
      findConfig db reg.program_id = some config →
      now < config.scoring_start ∨ now > config.scoring_end →
      submit_scores db judge_id reg scores_dict now = .error .scoringNotStarted ∨
      submit_scores db judge_id reg scores_dict now = .error .scoringClosed) := by
  constructor
  · intro config now
    simp [ScoringConfiguration.is_scoring_active]
  · intro db judge_id reg scores_dict config now hc hout
    by_cases h1 : now < config.scoring_start
    · left
      apply submit_scores_of_window_error
      unfold validate_scoring_window
      rw [hc]
      simp [h1]
    · right
      have h2 : now > config.scoring_end := hout.resolve_left h1
      apply submit_scores_of_window_error
      unfold validate_scoring_window
      rw [hc]
      simp [h1, h2]

/-- Witness for C5: with the window [0, 100] of `configA`, a submission at
time -5 fails as not started. -/
theorem c5_temporal_gating_witness :
    configA.is_scoring_active 50 = true ∧
    (submit_scores c2db 1 regA [(10, 7)] (-5) = .error .scoringNotStarted ∨
     submit_scores c2db 1 regA [(10, 7)] (-5) = .error .scoringClosed) :=
  ⟨by decide, c5_temporal_gating.2 c2db 1 regA [(10, 7)] configA (-5)
    (by decide) (by decide)⟩

/-- C3: under the uniqueness the model's `unique_together` on
(judge, participant) enforces, the conflict check fails with the conflict
error exactly when a REJECTED conflict row exists between the judge and the
registration's participant; PENDING or APPROVED rows never block. -/
theorem c3_conflict_gating (db : DB) (judge_id : Nat) (reg : Registration)
    (huniq : db.conflicts.Pairwise (fun c1 c2 =>
      ¬(c1.judge_id = c2.judge_id ∧ c1.participant_id = c2.participant_id))) :
    check_conflicts db judge_id reg = .error .conflictOfInterest ↔
      ∃ c ∈ db.conflicts, c.judge_id = judge_id ∧
        c.participant_id = reg.participant_id ∧ c.status = "REJECTED" := by
  unfold check_conflicts
  constructor
  · intro h
    cases hfind : db.conflicts.find? (fun c =>
        c.judge_id == judge_id && c.participant_id == reg.participant_id) with
    | none => rw [hfind] at h; exact Except.noConfusion h
    | some c =>
      rw [hfind] at h
      by_cases hs : c.status = "REJECTED"
      · have hp := List.find?_some hfind
        simp only [Bool.and_eq_true, beq_iff_eq] at hp
        exact ⟨c, List.mem_of_find?_eq_some hfind, hp.1, hp.2, hs⟩
      · simp [hs] at h
  · rintro ⟨c, hmem, hj, hp, hs⟩
    have hsome : (db.conflicts.find? (fun c =>
        c.judge_id == judge_id && c.participant_id == reg.participant_id)).isSome := by
      rw [List.find?_isSome]
      exact ⟨c, hmem, by simp [hj, hp]⟩
    obtain ⟨d, hfind⟩ := Option.isSome_iff_exists.mp hsome
    have hdmem := List.mem_of_find?_eq_some hfind
    have hdp := List.find?_some hfind
    simp only [Bool.and_eq_true, beq_iff_eq] at hdp
    have hsymm : Symmetric (fun c1 c2 : ConflictOfInterest =>
        ¬(c1.judge_id = c2.judge_id ∧ c1.participant_id = c2.participant_id)) :=
      fun a b hab hba => hab ⟨hba.1.symm, hba.2.symm⟩
    have hdc : d = c := by
      by_contra hne
      exact (huniq.forall hsymm hdmem hmem hne)
        ⟨hdp.1.trans hj.symm, hdp.2.trans hp.symm⟩
    rw [hfind, hdc]
    simp [hs]

/-- Witness for C3: the rejected conflict of `c3db` blocks judge 1's
submissions for participant 1's registration. -/
theorem c3_conflict_gating_witness :
    check_conflicts c3db 1 regA = .error .conflictOfInterest :=
  (c3_conflict_gating c3db 1 regA (by simp [c3db])).mpr
    ⟨c3conflict, by simp [c3db], rfl, rfl, rfl⟩

/-- `find?` returns the designated element when it satisfies the predicate
and is the only element of the list that does. -/
theorem find?_eq_of_unique {α : Type} {l : List α} {p : α → Bool} {a : α}
    (hmem : a ∈ l) (hp : p a = true)
    (huniq : ∀ b ∈ l, p b = true → b = a) :
    l.find? p = some a := by
  obtain ⟨d, hfind⟩ := Option.isSome_iff_exists.mp
    (List.find?_isSome.mpr ⟨a, hmem, hp⟩)
  rw [hfind,
    huniq d (List.mem_of_find?_eq_some hfind) (List.find?_some hfind)]

/-- C6: with registration categories that are absent or non-empty (the
empty string is not a sanctioned category) and the at-most-one-active-rubric
invariant the model's conditional unique constraint enforces:
(1) an active rubric whose category value equals the registration's is
returned; (2) failing that, the active general (no-category) rubric is
returned; (3) failing both, nothing is returned and `submit_scores` turns
this into the no-rubric failure once the three prior gates pass. -/
theorem c6_rubric_resolution (db : DB) (reg : Registration)
    (hcv : reg.category_value ≠ some "")
    (huniq : db.rubrics.Pairwise (fun r1 r2 =>
      ¬(r1.program_id = r2.program_id ∧ r1.category_value = r2.category_value ∧
        r1.is_active = true ∧ r2.is_active = true))) :
    (∀ r ∈ db.rubrics, r.program_id = reg.program_id →
      r.category_value = reg.category_value → r.is_active = true →
      Rubric.get_for_registration db reg = some r) ∧
    ((∀ r ∈ db.rubrics, ¬(r.program_id = reg.program_id ∧
        r.category_value = reg.category_value ∧ r.is_active = true)) →
      ∀ g ∈ db.rubrics, g.program_id = reg.program_id →
      g.category_value = none → g.is_active = true →
      Rubric.get_for_registration db reg = some g) ∧
    ((∀ r ∈ db.rubrics, ¬(r.program_id = reg.program_id ∧
        (r.category_value = reg.category_value ∨ r.category_value = none) ∧
        r.is_active = true)) →
      Rubric.get_for_registration db reg = none ∧
      ∀ (judge_id : Nat) (scores_dict : List (Nat × ℚ)) (now : Int),
        validate_scoring_window db reg.program_id now = .ok () →
        validate_judge_permission db judge_id reg = .ok () →
        check_conflicts db judge_id reg = .ok () →
        submit_scores db judge_id reg scores_dict now = .error .noRubric) := by
  have hsymm : Symmetric (fun r1 r2 : Rubric =>
      ¬(r1.program_id = r2.program_id ∧ r1.category_value = r2.category_value ∧
        r1.is_active = true ∧ r2.is_active = true)) :=
    fun a b hab hba => hab ⟨hba.1.symm, hba.2.1.symm, hba.2.2.2, hba.2.2.1⟩
  have huf := huniq.forall hsymm
  refine ⟨?_, ?_, ?_⟩
  · intro r hmem h1 h2 h3
    unfold Rubric.get_for_registration
    cases hrc : reg.category_value with
    | none =>
      rw [hrc] at h2
      rw [if_neg (by simp [strTruthy])]
      unfold findGeneralRubric
      apply find?_eq_of_unique hmem (by simp [h1, h2, h3])
      intro b hb hpb
      simp only [Bool.and_eq_true, beq_iff_eq] at hpb
      by_contra hne
      exact huf hb hmem hne
        ⟨hpb.1.1.trans h1.symm, hpb.1.2.trans h2.symm, hpb.2, h3⟩
    | some s =>
      have hs : s ≠ "" := fun h => hcv (by rw [hrc, h])
      rw [hrc] at h2
      rw [if_pos (show strTruthy (some s) = true by simpa [strTruthy] using hs)]
      have hfind : db.rubrics.find? (fun x =>
          x.program_id == reg.program_id &&
          x.category_value == some s && x.is_active) = some r := by
        apply find?_eq_of_unique hmem (by simp [h1, h2, h3])
        intro b hb hpb
        simp only [Bool.and_eq_true, beq_iff_eq] at hpb
        by_contra hne
        exact huf hb hmem hne
          ⟨hpb.1.1.trans h1.symm, hpb.1.2.trans h2.symm, hpb.2, h3⟩
      rw [hfind]
  · intro hnone g hgmem hg1 hg2 hg3
    unfold Rubric.get_for_registration
    cases hrc : reg.category_value with
    | none =>
      have h := hnone g hgmem
      rw [hrc] at h
      exact absurd ⟨hg1, hg2, hg3⟩ h
    | some s =>
      have hs : s ≠ "" := fun h => hcv (by rw [hrc, h])
      rw [hrc] at hnone
      rw [if_pos (show strTruthy (some s) = true by simpa [strTruthy] using hs)]
      have hnofind : db.rubrics.find? (fun x =>
          x.program_id == reg.program_id &&
          x.category_value == some s && x.is_active) = none := by
        rw [List.find?_eq_none]
        intro x hx hpx
        simp only [Bool.and_eq_true, beq_iff_eq] at hpx
        exact hnone x hx ⟨hpx.1.1, hpx.1.2, hpx.2⟩
      rw [hnofind]
      unfold findGeneralRubric
      apply find?_eq_of_unique hgmem (by simp [hg1, hg2, hg3])
      intro b hb hpb
      simp only [Bool.and_eq_true, beq_iff_eq] at hpb
      by_contra hne
      exact huf hb hgmem hne
        ⟨hpb.1.1.trans hg1.symm, hpb.1.2.trans hg2.symm, hpb.2, hg3⟩
  · intro hno
    have hgen : findGeneralRubric db reg.program_id = none := by
      unfold findGeneralRubric
      rw [List.find?_eq_none]
      intro x hx hpx
      simp only [Bool.and_eq_true, beq_iff_eq] at hpx
      exact hno x hx ⟨hpx.1.1, Or.inr hpx.1.2, hpx.2⟩
    have hres : Rubric.get_for_registration db reg = none := by
      unfold Rubric.get_for_registration
      cases hrc : reg.category_value with
      | none => rw [if_neg (by simp [strTruthy])]; exact hgen
      | some s =>
        have hs : s ≠ "" := fun h => hcv (by rw [hrc, h])
        rw [if_pos (show strTruthy (some s) = true by simpa [strTruthy] using hs)]
        have hnofind : db.rubrics.find? (fun x =>
            x.program_id == reg.program_id &&
            x.category_value == some s && x.is_active) = none := by
          rw [List.find?_eq_none]
          intro x hx hpx
          simp only [Bool.and_eq_true, beq_iff_eq] at hpx
          refine hno x hx ⟨hpx.1.1, Or.inl ?_, hpx.2⟩
          rw [hrc]
          exact hpx.1.2
        rw [hnofind]
        exact hgen
    exact ⟨hres, fun judge_id scores_dict now h1 h2 h3 =>
      submit_scores_of_no_rubric h1 h2 h3 hres⟩

/-- Witness for C6: in `c6db` (one matching category rubric, one general
rubric, both active) the category-specific rubric resolves for `c6reg`. -/
theorem c6_rubric_resolution_witness :
    Rubric.get_for_registration c6db c6reg = some c6rubric :=
  (c6_rubric_resolution c6db c6reg (by decide) (by decide)).1 c6rubric
    (by decide) rfl rfl rfl

/-- Shape of a successful insert: only the score table and its counter
change, and the derived fields follow the `save` formulas. -/
theorem create_ok_shape {db : DB} {pid rid jid : Nat}
    {criteria : RubricCriteria} {rubric : Rubric} {raw : ℚ} {revn : Nat}
    {prev : Option Nat} {db1 : DB} {row : JudgingScore}
    (h : JudgingScore.create db pid rid jid criteria rubric raw revn prev =
      .ok (db1, row)) :
    db1.criteria = db.criteria ∧ db1.registrations = db.registrations ∧
    db1.scores = db.scores ++ [row] ∧
    row.raw_score = raw ∧ row.max_score = criteria.max_score ∧
    row.score_percentage =
      (if criteria.max_score > 0 then raw / criteria.max_score * 100 else 0) ∧
    row.weighted_score =
      row.score_percentage / 100 * criteria.weight * rubric.total_possible_points := by
  unfold JudgingScore.create at h
  split at h
  · exact Except.noConfusion h
  · simp only [save_score_fields, Except.ok.injEq, Prod.mk.injEq] at h
    obtain ⟨hdb, hrow⟩ := h
    subst hdb
    subst hrow
    refine ⟨rfl, rfl, rfl, rfl, rfl, rfl, rfl⟩

/-- Shape of one successful loop step: the criteria and registration tables
are untouched and the produced row satisfies the `save` formulas for the
criterion it scores, which belongs to the resolved rubric. -/
theorem submit_one_ok_shape {db : DB} {judge_id : Nat} {reg : Registration}
    {rubric : Rubric} {now : Int} {cid : Nat} {raw : ℚ} {db1 : DB}
    {row : JudgingScore}
    (h : submit_one db judge_id reg rubric now cid raw = .ok (db1, row)) :
    db1.criteria = db.criteria ∧ db1.registrations = db.registrations ∧
    ∃ c ∈ db.criteria, c.rubric_id = rubric.id ∧
      row.max_score = c.max_score ∧
      row.score_percentage =
        (if row.max_score > 0 then row.raw_score / row.max_score * 100 else 0) ∧
      row.weighted_score =
        row.score_percentage / 100 * c.weight * rubric.total_possible_points := by
  unfold submit_one at h
  split at h
  · exact Except.noConfusion h
  next c heqc =>
    have hcb := List.find?_some heqc
    simp only [Bool.and_eq_true, beq_iff_eq] at hcb
    have hcm := List.mem_of_find?_eq_some heqc
    split at h
    · exact Except.noConfusion h
    · have hfromCreate : ∀ {pid rid jid revn : Nat} {prev : Option Nat},
          JudgingScore.create db pid rid jid c rubric raw
            revn prev = .ok (db1, row) →
          db1.criteria = db.criteria ∧ db1.registrations = db.registrations ∧
          ∃ d ∈ db.criteria, d.rubric_id = rubric.id ∧
            row.max_score = d.max_score ∧
            row.score_percentage =
              (if row.max_score > 0 then row.raw_score / row.max_score * 100 else 0) ∧
            row.weighted_score =
              row.score_percentage / 100 * d.weight * rubric.total_possible_points := by
        intro pid rid jid revn prev hc
        obtain ⟨e1, e2, _, hraw, hmax, hpct, hw⟩ := create_ok_shape hc
        exact ⟨e1, e2, c, hcm, hcb.2, hmax, by rw [hpct, hmax, hraw], hw⟩
      split at h
      next existing heqs =>
        unfold track_revision at h
        split at h
        · exact Except.noConfusion h
        next config heqcfg =>
          split at h
          · exact Except.noConfusion h
          · split at h
            · exact Except.noConfusion h
            · split at h
              · exact Except.noConfusion h
              · exact hfromCreate h
      next heqs => exact hfromCreate h

/-- Rows produced by the batch loop either were already accumulated or
satisfy the per-row shape of `submit_one_ok_shape`, relative to the criteria
table at loop entry (which the loop never modifies). -/
theorem submit_loop_rows_shape {judge_id : Nat} {reg : Registration}
    {rubric : Rubric} {now : Int} :
    ∀ {items : List (Nat × ℚ)} {db db1 : DB}
      {created rows : List JudgingScore},
      submit_loop judge_id reg rubric now db items created = .ok (db1, rows) →
      ∀ row ∈ rows, row ∈ created ∨
        ∃ c ∈ db.criteria, c.rubric_id = rubric.id ∧
          row.max_score = c.max_score ∧
          row.score_percentage =
            (if row.max_score > 0 then row.raw_score / row.max_score * 100 else 0) ∧
          row.weighted_score =
            row.score_percentage / 100 * c.weight * rubric.total_possible_points := by
  intro items
  induction items with
  | nil =>
    intro db db1 created rows h row hrow
    unfold submit_loop at h
    simp only [Except.ok.injEq, Prod.mk.injEq] at h
    exact Or.inl (h.2 ▸ hrow)
  | cons item rest ih =>
    intro db db1 created rows h row hrow
    obtain ⟨cid, raw⟩ := item
    unfold submit_loop at h
    split at h
    · exact Except.noConfusion h
    next db2 row2 heq =>
      obtain ⟨hcrit, _, hshape⟩ := submit_one_ok_shape heq
      rcases ih h row hrow with hin | ⟨c, hcm, hrest⟩
      · rcases List.mem_append.mp hin with h1 | h2
        · exact Or.inl h1
        · right
          obtain ⟨c, hcm, hprops⟩ := hshape
          have hr2 : row = row2 := List.mem_singleton.mp h2
          rw [hr2]
          exact ⟨c, hcm, hprops⟩
      · exact Or.inr ⟨c, hcrit ▸ hcm, hrest⟩

/-- A successful `submit_scores` run with a resolved rubric is exactly a
successful run of the batch loop from an empty accumulator. -/
theorem submit_scores_ok_loop {db : DB} {judge_id : Nat} {reg : Registration}
    {scores_dict : List (Nat × ℚ)} {now : Int} {db1 : DB}
    {rows : List JudgingScore} {rubric : Rubric}
    (hr : Rubric.get_for_registration db reg = some rubric)
    (h : submit_scores db judge_id reg scores_dict now = .ok (db1, rows)) :
    submit_loop judge_id reg rubric now db scores_dict [] = .ok (db1, rows) := by
  unfold submit_scores at h
  cases h1 : validate_scoring_window db reg.program_id now with
  | error e => rw [h1] at h; exact Except.noConfusion h
  | ok u =>
    rw [h1] at h
    cases h2 : validate_judge_permission db judge_id reg with
    | error e => rw [h2] at h; exact Except.noConfusion h
    | ok u2 =>
      rw [h2] at h
      cases h3 : check_conflicts db judge_id reg with
      | error e => rw [h3] at h; exact Except.noConfusion h
      | ok u3 =>
        rw [h3] at h
        rw [hr] at h
        exact h

unseal Rat.mul Rat.add Rat.sub Rat.inv in
/-- C7: every row persisted by a successful submission whose criterion cap is
positive carries `score_percentage = raw / max * 100` and
`weighted_score = percentage / 100 * weight * total_possible_points`; and on
the worked example (weights 0.6/0.4, caps 10, 100 total points, raw scores 8
and 6) the weighted scores are 48 and 24 with per-judge total 72. -/
theorem c7_weighted_score_fields :
    (∀ (db : DB) (judge_id : Nat) (reg : Registration)
        (scores_dict : List (Nat × ℚ)) (now : Int) (db1 : DB)
        (rows : List JudgingScore) (rubric : Rubric),
      Rubric.get_for_registration db reg = some rubric →
      submit_scores db judge_id reg scores_dict now = .ok (db1, rows) →
      ∀ row ∈ rows, 0 < row.max_score →
        row.score_percentage = row.raw_score / row.max_score * 100 ∧
        ∃ c ∈ db.criteria, c.rubric_id = rubric.id ∧
          row.max_score = c.max_score ∧
          row.weighted_score =
            row.score_percentage / 100 * c.weight * rubric.total_possible_points) ∧
    (submit_scores c7db 1 regA [(11, 8), (12, 6)] 50 = .ok (c7db1, [c7row1, c7row2]) ∧
      c7row1.weighted_score = 48 ∧ c7row2.weighted_score = 24 ∧
      c7row1.weighted_score + c7row2.weighted_score = 72) := by
  constructor
  · intro db judge_id reg scores_dict now db1 rows rubric hr hsub row hrow hpos
    have hloop := submit_scores_ok_loop hr hsub
    rcases submit_loop_rows_shape hloop row hrow with hin | ⟨c, hcm, hrid, hmax, hpct, hw⟩
    · exact absurd hin (List.not_mem_nil row)
    · exact ⟨by rw [hpct, if_pos hpos], c, hcm, hrid, hmax, hw⟩
  · decide

unseal Rat.mul Rat.add Rat.sub Rat.inv in
/-- Witness for C7: the general formula applied to the first row of the
worked example. -/
theorem c7_weighted_score_fields_witness :
    c7row1.score_percentage = c7row1.raw_score / c7row1.max_score * 100 ∧
    ∃ c ∈ c7db.criteria, c.rubric_id = rubricA.id ∧
      c7row1.max_score = c.max_score ∧
      c7row1.weighted_score =
        c7row1.score_percentage / 100 * c.weight * rubricA.total_possible_points :=
  c7_weighted_score_fields.1 c7db 1 regA [(11, 8), (12, 6)] 50 c7db1
    [c7row1, c7row2] rubricA (by decide) (by decide) c7row1
    (by decide) (by decide)

/-- `totalFor` on a cons cell. -/
theorem totalFor_cons (k : Nat) (v : ℚ) (rest : List (Nat × ℚ)) (j : Nat) :
    totalFor ((k, v) :: rest) j = if k = j then v else totalFor rest j := by
  by_cases h : k = j <;> simp [totalFor, List.find?_cons, h]

/-- Adding a weighted score to the totals dictionary adds it to exactly the
one judge's total. -/
theorem totalFor_add_judge_total (acc : List (Nat × ℚ)) (j' : Nat) (w : ℚ)
    (j : Nat) :
    totalFor (add_judge_total acc j' w) j =
      totalFor acc j + (if j' = j then w else 0) := by
  induction acc with
  | nil =>
    rw [show add_judge_total [] j' w = [(j', w)] from rfl, totalFor_cons]
    by_cases h : j' = j
    · rw [if_pos h, if_pos h]
      show w = totalFor [] j + w
      rw [show totalFor [] j = (0 : ℚ) from rfl, zero_add]
    · rw [if_neg h, if_neg h, add_zero]
  | cons kv rest ih =>
    obtain ⟨k, v⟩ := kv
    unfold add_judge_total
    by_cases hkj' : k = j'
    · rw [if_pos hkj', totalFor_cons, totalFor_cons]
      by_cases hkj : k = j
      · rw [if_pos hkj, if_pos hkj, if_pos (hkj'.symm.trans hkj)]
      · rw [if_neg hkj, if_neg hkj,
          if_neg (fun h => hkj (hkj'.trans h)), add_zero]
    · rw [if_neg hkj', totalFor_cons, totalFor_cons]
      by_cases hkj : k = j
      · rw [if_pos hkj, if_pos hkj,
          if_neg (fun h => hkj' (hkj.trans h.symm)), add_zero]
      · rw [if_neg hkj, if_neg hkj]
        exact ih

/-- The totals dictionary built by the TOP_N loop over any accumulator. -/
theorem totalFor_judge_totals_general (scores : List JudgingScore) (j : Nat) :
    ∀ acc, totalFor (scores.foldl
        (fun acc s => add_judge_total acc s.judge_id s.weighted_score) acc) j =
      totalFor acc j +
        ((scores.filter (fun s => s.judge_id == j)).map
          (fun s => s.weighted_score)).sum := by
  induction scores with
  | nil => intro acc; simp
  | cons s rest ih =>
    intro acc
    rw [List.foldl_cons, ih, totalFor_add_judge_total]
    by_cases h : s.judge_id = j
    · rw [if_pos h, List.filter_cons_of_pos (by simp [h]), List.map_cons,
        List.sum_cons]
      ring
    · rw [if_neg h, List.filter_cons_of_neg (by simp [h]), add_zero]

/-- Each judge's entry in the TOP_N totals dictionary is the sum of that
judge's weighted scores. -/
theorem judge_totals_spec (scores : List JudgingScore) (j : Nat) :
    totalFor (judge_totals scores) j =
      ((scores.filter (fun s => s.judge_id == j)).map
        (fun s => s.weighted_score)).sum := by
  have h := totalFor_judge_totals_general scores j []
  rw [show totalFor [] j = (0 : ℚ) from rfl, zero_add] at h
  exact h

/-- Adding to a totals dictionary never empties it. -/
theorem add_judge_total_ne_nil (acc : List (Nat × ℚ)) (j : Nat) (w : ℚ) :
    add_judge_total acc j w ≠ [] := by
  cases acc with
  | nil => exact List.cons_ne_nil _ _
  | cons kv rest =>
    obtain ⟨k, v⟩ := kv
    unfold add_judge_total
    by_cases h : k = j
    · rw [if_pos h]; exact List.cons_ne_nil _ _
    · rw [if_neg h]; exact List.cons_ne_nil _ _

/-- A nonempty score list yields a nonempty totals dictionary. -/
theorem judge_totals_ne_nil {scores : List JudgingScore} (h : scores ≠ []) :
    judge_totals scores ≠ [] := by
  obtain ⟨s, rest, rfl⟩ := List.exists_cons_of_ne_nil h
  clear h
  unfold judge_totals
  rw [List.foldl_cons]
  have hne := add_judge_total_ne_nil ([] : List (Nat × ℚ)) s.judge_id s.weighted_score
  generalize add_judge_total [] s.judge_id s.weighted_score = acc at hne ⊢
  induction rest generalizing acc with
  | nil => simpa using hne
  | cons t ts ih =>
    rw [List.foldl_cons]
    apply ih
    exact add_judge_total_ne_nil _ _ _

/-- The TOP_N default is positive: `None` and `0` both fall back to 3. -/
theorem defaultTopN_pos (o : Option Nat) : 0 < defaultTopN o := by
  cases o with
  | none => decide
  | some n => cases n <;> simp [defaultTopN]

/-- Taking a positive prefix of a nonempty list is nonempty. -/
theorem take_ne_nil_of_ne_nil {α : Type} {l : List α} {n : Nat}
    (hl : l ≠ []) (hn : n ≠ 0) : l.take n ≠ [] := by
  obtain ⟨x, xs, rfl⟩ := List.exists_cons_of_ne_nil hl
  obtain ⟨m, rfl⟩ := Nat.exists_eq_succ_of_ne_zero hn
  simp [List.take_succ_cons]

/-- The TOP_N branch of `apply_calculation_method`, written out. -/
theorem apply_top_n_eq (scores : List JudgingScore) (top_n : Option Nat)
    (hne : scores ≠ []) :
    apply_calculation_method scores "TOP_N" top_n =
      if ((List.insertionSort (fun a b : ℚ => a ≥ b)
          ((judge_totals scores).map (fun p => p.2))).take
            (defaultTopN top_n)).isEmpty
      then 0
      else ((List.insertionSort (fun a b : ℚ => a ≥ b)
          ((judge_totals scores).map (fun p => p.2))).take
            (defaultTopN top_n)).sum /
        ((((List.insertionSort (fun a b : ℚ => a ≥ b)
          ((judge_totals scores).map (fun p => p.2))).take
            (defaultTopN top_n)).length : Nat) : ℚ) := by
  unfold apply_calculation_method
  rw [if_neg (by simp [hne]), if_neg (by decide), if_pos rfl]

unseal Rat.mul Rat.add Rat.sub Rat.inv in
/-- C8: under TOP_N, each judge's dictionary entry is the sum of that
judge's weighted scores; the result averages the `defaultTopN top_n` largest
per-judge totals, taken from a descending sorted permutation of the totals;
the default is 3 when `top_n_count` is unconfigured; and three judge totals
[50, 70, 90] with `top_n_count = 2` give 80. -/
theorem c8_top_n_aggregation :
    (∀ (scores : List JudgingScore) (j : Nat),
      totalFor (judge_totals scores) j =
        ((scores.filter (fun s => s.judge_id == j)).map
          (fun s => s.weighted_score)).sum) ∧
    (∀ (scores : List JudgingScore) (top_n : Option Nat), scores ≠ [] →
      ∃ l, List.Perm ((judge_totals scores).map (fun p => p.2)) l ∧
        l.Sorted (fun a b : ℚ => a ≥ b) ∧ l ≠ [] ∧
        apply_calculation_method scores "TOP_N" top_n =
          (l.take (defaultTopN top_n)).sum /
            (((l.take (defaultTopN top_n)).length : Nat) : ℚ)) ∧
    defaultTopN none = 3 ∧
    apply_calculation_method c8scores "TOP_N" (some 2) = 80 := by
  refine ⟨judge_totals_spec, ?_, rfl, by decide⟩
  intro scores top_n hne
  have hmapne : (judge_totals scores).map (fun p => p.2) ≠ [] := by
    simpa using judge_totals_ne_nil hne
  have hsortne : List.insertionSort (fun a b : ℚ => a ≥ b)
      ((judge_totals scores).map (fun p => p.2)) ≠ [] := by
    intro hnil
    have hperm := List.perm_insertionSort (fun a b : ℚ => a ≥ b)
      ((judge_totals scores).map (fun p => p.2))
    rw [hnil] at hperm
    exact hmapne hperm.symm.eq_nil
  have htake : (List.insertionSort (fun a b : ℚ => a ≥ b)
      ((judge_totals scores).map (fun p => p.2))).take (defaultTopN top_n) ≠ [] :=
    take_ne_nil_of_ne_nil hsortne (Nat.pos_iff_ne_zero.mp (defaultTopN_pos top_n))
  refine ⟨List.insertionSort (fun a b : ℚ => a ≥ b)
      ((judge_totals scores).map (fun p => p.2)),
    (List.perm_insertionSort _ _).symm, List.sorted_insertionSort _ _,
    hsortne, ?_⟩
  rw [apply_top_n_eq scores top_n hne, if_neg (by simp [htake])]

/-- Witness for C8: the sorted-permutation characterization instantiated at
the three-judge example with `top_n_count = 2`. -/
theorem c8_top_n_aggregation_witness :
    ∃ l, List.Perm ((judge_totals c8scores).map (fun p => p.2)) l ∧
      l.Sorted (fun a b : ℚ => a ≥ b) ∧ l ≠ [] ∧
      apply_calculation_method c8scores "TOP_N" (some 2) =
        (l.take (defaultTopN (some 2))).sum /
          (((l.take (defaultTopN (some 2))).length : Nat) : ℚ) :=
  c8_top_n_aggregation.2.1 c8scores (some 2) (by decide)

/-- C9 counterexample: in `c9db` one active judge faces two PAID
registrations, one already scored. The claim's count of unscored eligible
registrations is 1, but the source distributes the full PAID count 2, so the
assigned counts do not sum to the claim's M. -/
theorem c9_distribution_counterexample :
    claimUnscoredEligibleCount c9db 1 none = 1 ∧
    distribute_workload c9db 1 none = [(1, 2)] ∧
    ((distribute_workload c9db 1 none).map (fun p => p.2)).sum ≠
      claimUnscoredEligibleCount c9db 1 none := by
  decide

/-- Writing an absent key into a Python-style dict appends it. -/
theorem dict_set_of_not_mem {d : List (Nat × Nat)} {k : Nat} (v : Nat)
    (h : ∀ p ∈ d, p.1 ≠ k) : dict_set d k v = d ++ [(k, v)] := by
  unfold dict_set
  rw [if_neg]
  simp only [List.any_eq_true, beq_iff_eq, not_exists, not_and]
  exact fun p hp => h p hp

/-- Folding Python-style dict writes with pairwise-distinct keys, disjoint
from the accumulator's keys, just appends the pairs in order. -/
theorem foldl_dict_set_nodup :
    ∀ (ps : List (Nat × Nat)) (acc : List (Nat × Nat)),
      (ps.map Prod.fst).Nodup →
      (∀ p ∈ acc, ∀ q ∈ ps, p.1 ≠ q.1) →
      ps.foldl (fun d q => dict_set d q.1 q.2) acc = acc ++ ps := by
  intro ps
  induction ps with
  | nil => intro acc _ _; simp
  | cons q qs ih =>
    intro acc hnodup hdisj
    rw [List.map_cons, List.nodup_cons] at hnodup
    rw [List.foldl_cons,
      dict_set_of_not_mem q.2 (fun p hp => hdisj p hp q (List.mem_cons_self q qs)),
      ih (acc ++ [(q.1, q.2)]) hnodup.2]
    · simp
    · intro p hp r hr
      rcases List.mem_append.mp hp with h1 | h2
      · exact hdisj p h1 r (List.mem_cons_of_mem _ hr)
      · have hpq : p = (q.1, q.2) := by simpa using h2
        subst hpq
        intro heq
        exact hnodup.1 (heq ▸ List.mem_map_of_mem Prod.fst hr)

/-- Summing `base + 1` for the first `rem` indices and `base` for the rest
over `range N`. -/
theorem sum_range_base_ite (N base rem : Nat) :
    ((List.range N).map (fun i => base + if i < rem then 1 else 0)).sum =
      N * base + min rem N := by
  induction N with
  | zero => simp
  | succ n ih =>
    rw [List.range_succ, List.map_append, List.sum_append, ih]
    simp only [List.map_cons, List.map_nil, List.sum_cons, List.sum_nil]
    rw [Nat.succ_mul]
    by_cases h : n < rem
    · rw [if_pos h]
      omega
    · rw [if_neg h]
      omega

/-- Folding Python-style dict writes of keyed values over any list with
pairwise-distinct keys produces the corresponding association list. -/
theorem foldl_dict_set_map {β : Type} (l : List β) (key : β → Nat)
    (val : β → Nat) (hnodup : (l.map key).Nodup) :
    l.foldl (fun d p => dict_set d (key p) (val p)) [] =
      l.map (fun p => (key p, val p)) := by
  have h := List.foldl_map (fun p => (key p, val p))
    (fun d (q : Nat × Nat) => dict_set d q.1 q.2) l ([] : List (Nat × Nat))
  rw [← h]
  apply foldl_dict_set_nodup
  · rw [List.map_map]
    simpa using hnodup
  · intro p hp
    exact absurd hp (List.not_mem_nil p)

/-- C9 (amended): M counts all eligible (PAID, optionally category-filtered)
registrations, whether or not already scored. With a nonempty set of active
assignments all having distinct judges, the i-th assignment in iteration
order receives `M / N + 1` when `i < M % N` and `M / N` otherwise, so the
assigned counts differ by at most one and sum to M. -/
theorem c9_distribution_amended (db : DB) (program_id : Nat)
    (category_value : Option String)
    (hne : active_assignments db program_id category_value ≠ [])
    (hnodup : ((active_assignments db program_id category_value).map
      (fun a => a.judge_id)).Nodup) :
    distribute_workload db program_id category_value =
      (active_assignments db program_id category_value).enum.map (fun p =>
        (p.2.judge_id,
          (eligible_registrations db program_id category_value).length /
            (active_assignments db program_id category_value).length +
          if p.1 < (eligible_registrations db program_id category_value).length %
              (active_assignments db program_id category_value).length
          then 1 else 0)) ∧
    ((distribute_workload db program_id category_value).map
        (fun p => p.2)).sum =
      (eligible_registrations db program_id category_value).length ∧
    (∀ x ∈ (distribute_workload db program_id category_value).map
        (fun p => p.2),
      x = (eligible_registrations db program_id category_value).length /
            (active_assignments db program_id category_value).length ∨
      x = (eligible_registrations db program_id category_value).length /
            (active_assignments db program_id category_value).length + 1) := by
  have hN : 0 < (active_assignments db program_id category_value).length :=
    List.length_pos.mpr hne
  have henum : ((active_assignments db program_id category_value).enum.map
      (fun p => p.2.judge_id)).Nodup := by
    have : ((active_assignments db program_id category_value).enum.map
        Prod.snd).map (fun a => a.judge_id) =
        (active_assignments db program_id category_value).map
          (fun a => a.judge_id) := by
      rw [List.enum_map_snd]
    rw [← this] at hnodup
    rw [List.map_map] at hnodup
    exact hnodup
  have hmain : distribute_workload db program_id category_value =
      (active_assignments db program_id category_value).enum.map (fun p =>
        (p.2.judge_id,
          (eligible_registrations db program_id category_value).length /
            (active_assignments db program_id category_value).length +
          if p.1 < (eligible_registrations db program_id category_value).length %
              (active_assignments db program_id category_value).length
          then 1 else 0)) := by
    unfold distribute_workload
    rw [if_neg (by simp [hne])]
    exact foldl_dict_set_map _ _ _ henum
  refine ⟨hmain, ?_, ?_⟩
  · rw [hmain, List.map_map]
    rw [show (Prod.snd ∘ (fun p : Nat × JudgeAssignment =>
        (p.2.judge_id,
          (eligible_registrations db program_id category_value).length /
            (active_assignments db program_id category_value).length +
          if p.1 < (eligible_registrations db program_id category_value).length %
              (active_assignments db program_id category_value).length
          then 1 else 0))) =
      ((fun i : Nat =>
          (eligible_registrations db program_id category_value).length /
            (active_assignments db program_id category_value).length +
          if i < (eligible_registrations db program_id category_value).length %
              (active_assignments db program_id category_value).length
          then 1 else 0) ∘ Prod.fst) from rfl]
    rw [← List.map_map, List.enum_map_fst, sum_range_base_ite,
      Nat.min_eq_left (le_of_lt (Nat.mod_lt _ hN)),
      Nat.div_add_mod]
  · intro x hx
    rw [hmain, List.map_map] at hx
    obtain ⟨p, _, hpx⟩ := List.mem_map.mp hx
    by_cases h : p.1 <
        (eligible_registrations db program_id category_value).length %
          (active_assignments db program_id category_value).length
    · right
      rw [← hpx]
      simp [h]
    · left
      rw [← hpx]
      simp [h]

/-- Witness for C9 (amended): two judges, five PAID registrations; the first
assignment receives 3 and the second 2, summing to 5. -/
theorem c9_distribution_amended_witness :
    ((distribute_workload c9wdb 1 none).map (fun p => p.2)).sum =
      (eligible_registrations c9wdb 1 none).length ∧
    distribute_workload c9wdb 1 none = [(1, 3), (2, 2)] :=
  ⟨(c9_distribution_amended c9wdb 1 none (by decide) (by decide)).2.1,
    by decide⟩

/-- Every aggregation method returns 0 on an empty score list. -/
theorem apply_calculation_method_nil (method : String) (top_n : Option Nat) :
    apply_calculation_method [] method top_n = 0 := rfl

/-- A registration with no persisted scores aggregates to a zero final
score (whatever the configuration), keyed by its own ids. -/
theorem aggregate_scores_of_no_scores {db : DB} {reg : Registration}
    (hnoscores : db.scores.filter (fun s =>
      s.program_id == reg.program_id && s.registration_id == reg.id) = []) :
    (aggregate_scores db reg).final_score = 0 ∧
    (aggregate_scores db reg).registration_id = reg.id := by
  unfold aggregate_scores
  rw [hnoscores]
  cases hcfg : findConfig db reg.program_id with
  | none => exact ⟨rfl, rfl⟩
  | some config => exact ⟨rfl, rfl⟩

/-- `calculate_leaderboard`, written out: aggregate the eligible
registrations, sort by final score descending, assign positional ranks. -/
theorem calculate_leaderboard_eq (db : DB) (program_id : Nat)
    (category_value : Option String) :
    calculate_leaderboard db program_id category_value =
      (List.insertionSort
        (fun a b : LeaderboardEntry => a.final_score ≥ b.final_score)
        ((eligible_registrations db program_id category_value).map
          (aggregate_scores db))).enum.map
        (fun q => { q.2 with rank := q.1 + 1 }) := rfl

/-- C10: a PAID registration with no persisted score rows still appears in
the leaderboard, with final score 0 and the 1-based rank of its sorted
position, rather than being omitted or failing. -/
theorem c10_unscored_included (db : DB) (program_id : Nat)
    (category_value : Option String) (reg : Registration)
    (hmem : reg ∈ db.registrations)
    (hprog : reg.program_id = program_id) (hstatus : reg.status = "PAID")
    (hcat : strTruthy category_value = true →
      reg.category_value = category_value)
    (hnoscores : db.scores.filter (fun s =>
      s.program_id == reg.program_id && s.registration_id == reg.id) = []) :
    ∃ i e, (calculate_leaderboard db program_id category_value).get? i = some e ∧
      e.registration_id = reg.id ∧ e.final_score = 0 ∧ e.rank = i + 1 := by
  have helig : reg ∈ eligible_registrations db program_id category_value := by
    unfold eligible_registrations
    have hbase : reg ∈ db.registrations.filter (fun r =>
        r.program_id == program_id && r.status == "PAID") :=
      List.mem_filter.mpr ⟨hmem, by simp [hprog, hstatus]⟩
    by_cases ht : strTruthy category_value = true
    · rw [if_pos ht]
      exact List.mem_filter.mpr ⟨hbase, by simp [hcat ht]⟩
    · rw [if_neg ht]
      exact hbase
  obtain ⟨hfs, hid⟩ := aggregate_scores_of_no_scores hnoscores
  have hres : aggregate_scores db reg ∈
      (eligible_registrations db program_id category_value).map
        (aggregate_scores db) :=
    List.mem_map_of_mem (aggregate_scores db) helig
  have hsorted : aggregate_scores db reg ∈
      List.insertionSort
        (fun a b : LeaderboardEntry => a.final_score ≥ b.final_score)
        ((eligible_registrations db program_id category_value).map
          (aggregate_scores db)) :=
    (List.Perm.mem_iff (List.perm_insertionSort _ _)).mpr hres
  obtain ⟨i, hget⟩ := List.get?_of_mem hsorted
  refine ⟨i, { aggregate_scores db reg with rank := i + 1 }, ?_, hid, hfs, rfl⟩
  rw [calculate_leaderboard_eq, List.get?_map, List.get?_enum, hget]
  rfl

/-- Witness for C10: in `c10db` the single PAID, unscored registration gets
rank 1 with final score 0. -/
theorem c10_unscored_included_witness :
    ∃ i e, (calculate_leaderboard c10db 1 none).get? i = some e ∧
      e.registration_id = regA.id ∧ e.final_score = 0 ∧ e.rank = i + 1 :=
  c10_unscored_included c10db 1 none regA (by decide) rfl rfl (by decide) rfl
